import Mathlib

/-
Verification of the control logic of HomeAutomationRemote.ino (touchscreen
home-automation remote: navigation state machine, thermostat controller,
rolling-average sensor filter, and the 5-day weather decode/aggregation
pipeline).

Modelling conventions:
* C `float` values are modelled as rationals (`ℚ`); all constants involved in
  the verified claims (multiples of 0.5, the sentinel 1000.0, thresholds 15/30,
  temperatures in the scenarios) are exactly representable and the code only
  adds, subtracts and compares them.
* C `int` is modelled as `ℤ`, `unsigned int`/`unsigned long` as `ℕ`.  The
  source never lets the modelled quantities near a wrap boundary.
* Hardware and drawing side effects (`digitalWrite`, `tft.*`, `tone`, delays)
  carry no program state and are dropped; durable-storage writes
  (`ThermostatStore.write`) and the `NVIC_SystemReset` calls are modelled as
  explicit outputs of the corresponding functions.
* An out-of-range C array access is undefined behaviour; where the source can
  index out of range the model routes the access through a total helper
  (`bucketsUpd`, `tempUpd`, `humiUpd`, `switchRead`) that leaves the state
  unchanged (writes) or returns an environment-supplied junk record (reads),
  and the theorems either keep indices in range or expose the out-of-range
  index itself.
-/

namespace HomeAutomationRemote

/-- Screen touch point, from `TS_Point` (16-bit coordinates, modelled as `ℤ`). -/
structure Point where
  x : ℤ
  y : ℤ
deriving DecidableEq

/-- Rectangle intersection test from the source (`isIntersect`); the touch
point is passed as a 1x1 rectangle. -/
def isIntersect (ax ay aw ah bx b_y bw bh : ℤ) : Bool :=
  decide (bx + bw > ax) && decide (b_y + bh > ay) &&
  decide (ax + aw > bx) && decide (ay + ah > b_y)

/-! ## RollingAverage (`class CalcAverage`) -/

/-- Fixed capacity of the circular mean filter (`AVERAGE_MAX`). -/
def AVERAGE_MAX : ℕ := 20

/-- State of `class CalcAverage`: a 20-slot circular buffer, a running sum and
the write cursor `cnt` (kept in `Fin 20`, matching the wrap `if (++cnt >= 20)
cnt = 0`). -/
structure CalcAverage where
  readings : Fin 20 → ℚ
  sum : ℚ
  cnt : Fin 20

namespace CalcAverage

/-- The source method `Init()`: zero the sum and every buffer slot, cursor 0. -/
def Init : CalcAverage :=
  { readings := fun _ => 0, sum := 0, cnt := 0 }

/-- The source method `AddValue(float in)`: subtract the slot under the
cursor from the sum, overwrite it, add it back, advance the cursor mod 20. -/
def AddValue (a : CalcAverage) (x : ℚ) : CalcAverage :=
  { readings := Function.update a.readings a.cnt x
    sum := a.sum - a.readings a.cnt + x
    cnt := ⟨(a.cnt.val + 1) % 20, Nat.mod_lt _ (by norm_num)⟩ }

/-- The source method `GetAverage()`: always divides by the full capacity. -/
def GetAverage (a : CalcAverage) : ℚ :=
  a.sum / AVERAGE_MAX

/-- Feed a whole sample sequence, first sample first. -/
def addAll (a : CalcAverage) (vs : List ℚ) : CalcAverage :=
  vs.foldl AddValue a

end CalcAverage

lemma calcAverage_addAll_invariant :
    ∀ (vs : List ℚ) (a : CalcAverage),
      a.cnt.val + vs.length ≤ 20 →
      (∀ i : Fin 20, a.cnt.val ≤ i.val → a.readings i = 0) →
      (a.addAll vs).sum = a.sum + vs.sum := by
  intro vs
  induction vs with
  | nil => intro a _ _; simp [CalcAverage.addAll]
  | cons x t ih =>
    intro a hlen hzero
    have hcur : a.readings a.cnt = 0 := hzero a.cnt (le_refl _)
    have hstep : a.addAll (x :: t) = (a.AddValue x).addAll t := by
      simp [CalcAverage.addAll]
    rw [hstep]
    cases t with
    | nil =>
      simp [CalcAverage.addAll, CalcAverage.AddValue, hcur]
    | cons y u =>
      have hlt : a.cnt.val + 1 < 20 := by
        simp at hlen
        omega
      have hcnt : ((a.AddValue x).cnt : ℕ) = a.cnt.val + 1 := by
        simp [CalcAverage.AddValue]
        omega
      have hz : ∀ i : Fin 20, ((a.AddValue x).cnt : ℕ) ≤ i.val →
          (a.AddValue x).readings i = 0 := by
        intro i hi
        rw [hcnt] at hi
        have hne : i ≠ a.cnt := by
          intro h
          rw [h] at hi
          omega
        simp [CalcAverage.AddValue, Function.update_noteq hne]
        exact hzero i (by omega)
      have hl : ((a.AddValue x).cnt : ℕ) + (y :: u).length ≤ 20 := by
        rw [hcnt]
        simp at hlen ⊢
        omega
      rw [ih (a.AddValue x) hl hz]
      simp [CalcAverage.AddValue, hcur]
      ring

/-- C3: a freshly initialised `CalcAverage` has a zero buffer and zero sum, and
after adding any `N ≤ 20` samples, `GetAverage` returns the sum of the samples
divided by the fixed capacity 20 (not by `N`). -/
theorem calcAverage_warmup_mean :
    (CalcAverage.Init.sum = 0 ∧ ∀ i : Fin 20, CalcAverage.Init.readings i = 0) ∧
    ∀ vs : List ℚ, vs.length ≤ 20 →
      (CalcAverage.Init.addAll vs).GetAverage = vs.sum / 20 := by
  constructor
  · exact ⟨rfl, fun _ => rfl⟩
  · intro vs hlen
    have h := calcAverage_addAll_invariant vs CalcAverage.Init
      (by simpa [CalcAverage.Init] using hlen)
      (by intro i _; rfl)
    have hs : (CalcAverage.Init.addAll vs).sum = vs.sum := by
      rw [h]; simp [CalcAverage.Init]
    unfold CalcAverage.GetAverage
    rw [hs]
    norm_num [AVERAGE_MAX]

/-- Witness for C3 at the concrete sample list `[4, 6, 10]`. -/
theorem calcAverage_warmup_mean_witness :
    (CalcAverage.Init.addAll [4, 6, 10]).GetAverage = ([4, 6, 10] : List ℚ).sum / 20 :=
  calcAverage_warmup_mean.2 [4, 6, 10] (by decide)

/-! ## Thermostat controller (`struct ThermostatData` and its operations) -/

/-- Hysteresis duration in ticks (`THERMOSTAT_HYSTERESIS`, seconds). -/
def THERMOSTAT_HYSTERESIS : ℤ := 20

/-- The source `struct ThermostatData` (the flash-persisted record). -/
structure ThermostatData where
  Status : Bool
  RelayStatus : Bool
  Temp : ℚ
  RemoteControl : Bool
  HeaterStatus : Bool
  Hysteresis : ℤ
deriving DecidableEq

/-- Thermostat boot initialisation, from `setup()`: read the stored record,
sanitise the setpoint (`<= 0` or `>= 30` falls back to 20.0), force every
status flag off, remote-control line reads `HIGH` (pull-up), hysteresis 0. -/
def setupThermostat (stored : ThermostatData) : ThermostatData :=
  { stored with
    Temp := if stored.Temp ≤ 0 ∨ 30 ≤ stored.Temp then 20 else stored.Temp
    Status := false
    RelayStatus := false
    HeaterStatus := false
    RemoteControl := true
    Hysteresis := 0 }

/-- The source `TouchThermostat(TS_Point p)`.  Returns the new state together
with the durable-storage write issued by the tap (`ThermostatStore.write`),
if any.  Region 1 toggles on/off (forcing the relay off when disabling),
region 2 is the −0.5 tap, region 3 the +0.5 tap. -/
def TouchThermostat (p : Point) (t : ThermostatData) :
    ThermostatData × Option ThermostatData :=
  if isIntersect p.x p.y 1 1 0 30 320 60 then
    let t := { t with Status := !t.Status }
    let t := if t.Status = false then { t with RelayStatus := false } else t
    (t, none)
  else if isIntersect p.x p.y 1 1 0 180 120 60 then
    if 15 < t.Temp then
      let t := { t with Temp := t.Temp - 1/2 }
      (t, some t)
    else (t, none)
  else if isIntersect p.x p.y 1 1 200 180 120 60 then
    if t.Temp < 30 then
      let t := { t with Temp := t.Temp + 1/2 }
      (t, some t)
    else (t, none)
  else (t, none)

/-- The per-tick remote-override check from `loop()` (`TRC` is the debounced
reading of the remote-control line: `true` when the pin reads `LOW`).  Acts
only when the line changed, and only changes `Status` when it differs from the
new line state; disabling forces the relay off. -/
def RemoteCheck (t : ThermostatData) (TRC : Bool) : ThermostatData :=
  if t.RemoteControl ≠ TRC then
    let t := { t with RemoteControl := TRC }
    if t.Status ≠ t.RemoteControl then
      let t := { t with Status := t.RemoteControl }
      if t.Status = false then { t with RelayStatus := false } else t
    else t
  else t

/-- The per-tick relay evaluation from `loop()`, including its enclosing
`if (Thermostat.Status)` guard.  `Temperature` is the filtered temperature.
A change of the desired relay state re-arms the hysteresis countdown; the
countdown decrements every tick and the change is committed only when it
reaches zero. -/
def EvaluateRelay (t : ThermostatData) (Temperature : ℚ) : ThermostatData :=
  if t.Status then
    let HeaterNewStatus : Bool := decide (Temperature < t.Temp)
    let t := if t.HeaterStatus ≠ HeaterNewStatus then
        { t with HeaterStatus := HeaterNewStatus,
                 Hysteresis := THERMOSTAT_HYSTERESIS }
      else t
    let t := if 0 < t.Hysteresis then { t with Hysteresis := t.Hysteresis - 1 } else t
    if t.Hysteresis = 0 then
      if t.RelayStatus ≠ HeaterNewStatus then
        { t with RelayStatus := HeaterNewStatus }
      else t
    else t
  else t

lemma EvaluateRelay_Status (t : ThermostatData) (T : ℚ) :
    (EvaluateRelay t T).Status = t.Status := by
  simp only [EvaluateRelay]
  split_ifs <;> rfl

lemma EvaluateRelay_not_enabled (t : ThermostatData) (T : ℚ)
    (h : t.Status = false) : EvaluateRelay t T = t := by
  simp [EvaluateRelay, h]

/-- Reachable thermostat states: boot initialisation from an arbitrary stored
record, followed by any interleaving of thermostat-page taps, per-tick
remote-override checks, and per-tick relay evaluations. -/
inductive ThermoReach : ThermostatData → Prop
  | boot (stored : ThermostatData) : ThermoReach (setupThermostat stored)
  | tap (t : ThermostatData) (p : Point) :
      ThermoReach t → ThermoReach (TouchThermostat p t).1
  | remote (t : ThermostatData) (TRC : Bool) :
      ThermoReach t → ThermoReach (RemoteCheck t TRC)
  | evalTick (t : ThermostatData) (Temperature : ℚ) :
      ThermoReach t → ThermoReach (EvaluateRelay t Temperature)

/-- C1: in every reachable thermostat state, the relay is off whenever the
controller is disabled; the invariant is established at initialisation and
preserved by the on/off toggle (and the other taps), the remote-override
check, and the relay evaluation (which only acts when `Status` is true). -/
theorem thermostat_relay_off_when_disabled :
    ∀ t : ThermostatData, ThermoReach t → t.Status = false → t.RelayStatus = false := by
  intro t h
  induction h with
  | boot stored => intro _; rfl
  | tap t p _ ih =>
    unfold TouchThermostat
    split
    · cases hs : (!t.Status) <;> simp [hs]
    · split
      · split <;> (intro h; exact ih h)
      · split
        · split <;> (intro h; exact ih h)
        · intro h; exact ih h
  | remote t TRC _ ih =>
    intro hS
    rcases t with ⟨st, rel, tmp, rc, hst, hys⟩
    cases TRC <;> cases st <;> cases rc <;> simp_all [RemoteCheck]
  | evalTick t Temperature _ ih =>
    intro hS
    rw [EvaluateRelay_Status t Temperature] at hS
    rw [EvaluateRelay_not_enabled t Temperature hS]
    exact ih hS

/-- Witness for C1: a freshly booted controller is disabled with the relay off. -/
theorem thermostat_relay_off_when_disabled_witness :
    (setupThermostat ⟨true, true, 22, true, true, 7⟩).RelayStatus = false :=
  thermostat_relay_off_when_disabled _
    (ThermoReach.boot ⟨true, true, 22, true, true, 7⟩) rfl

/-- Iterate the per-tick relay evaluation with a constant filtered
temperature. -/
def evalRun (t : ThermostatData) (Temperature : ℚ) : ℕ → ThermostatData
  | 0 => t
  | k + 1 => EvaluateRelay (evalRun t Temperature k) Temperature

/-- The C2 scenario start state: thermostat enabled, setpoint 20.0, relay-off
state committed (no pending hysteresis countdown). -/
def thermC2 : ThermostatData :=
  { Status := true, RelayStatus := false, Temp := 20,
    RemoteControl := true, HeaterStatus := false, Hysteresis := 0 }

/-- C2: with setpoint 20.0 and the thermostat enabled, ticks at a filtered
temperature of 21.0 leave the committed relay-off state unchanged; once the
temperature crosses to 19.0 the relay stays off for the first 19 ticks and
turns on exactly at the 20th consecutive tick; and, in general, any tick on
which the desired relay state differs from the latched one re-arms the
countdown to 20 (observed as 19 after that tick's own decrement), latches the
latest desired value, and leaves the relay output unchanged on that tick. -/
theorem thermostat_hysteresis_countdown :
    (∀ m : ℕ, evalRun thermC2 21 m = thermC2) ∧
    (∀ k : ℕ, k ≤ 19 → (evalRun thermC2 19 k).RelayStatus = false) ∧
    (evalRun thermC2 19 20).RelayStatus = true ∧
    (∀ (t : ThermostatData) (T : ℚ), t.Status = true →
      t.HeaterStatus ≠ decide (T < t.Temp) →
      (EvaluateRelay t T).Hysteresis = THERMOSTAT_HYSTERESIS - 1 ∧
      (EvaluateRelay t T).HeaterStatus = decide (T < t.Temp) ∧
      (EvaluateRelay t T).RelayStatus = t.RelayStatus) := by
  refine ⟨?_, ?_, ?_, ?_⟩
  · intro m
    induction m with
    | zero => rfl
    | succ k ih => rw [evalRun, ih]; decide
  · decide
  · decide
  · intro t T hs hd
    simp only [EvaluateRelay, hs, if_true, if_pos hd, THERMOSTAT_HYSTERESIS]
    norm_num

/-- Witness for C2: concrete instances of the quantified conjuncts. -/
theorem thermostat_hysteresis_countdown_witness :
    evalRun thermC2 21 3 = thermC2 ∧
    (evalRun thermC2 19 5).RelayStatus = false ∧
    (EvaluateRelay thermC2 19).Hysteresis = THERMOSTAT_HYSTERESIS - 1 :=
  ⟨thermostat_hysteresis_countdown.1 3,
   thermostat_hysteresis_countdown.2.1 5 (by decide),
   (thermostat_hysteresis_countdown.2.2.2 thermC2 19 rfl (by decide)).1⟩

/-! ## Setpoint adjustment safety (C9) -/

/-- Well-formed setpoint values: within [15, 30] and on the 0.5 grid. -/
def PTemp (v : ℚ) : Prop :=
  15 ≤ v ∧ v ≤ 30 ∧ ∃ k : ℤ, v = k / 2

lemma PTemp_minus {v : ℚ} (hp : PTemp v) (h : 15 < v) : PTemp (v - 1/2) := by
  obtain ⟨h15, h30, k, hk⟩ := hp
  subst hk
  have hk31 : (31 : ℤ) ≤ k := by
    have : (30 : ℚ) < (k : ℚ) := by linarith
    have : (30 : ℤ) < k := by exact_mod_cast this
    omega
  have hc : (31 : ℚ) ≤ (k : ℚ) := by exact_mod_cast hk31
  refine ⟨by linarith, by linarith, k - 1, ?_⟩
  push_cast
  ring

lemma PTemp_plus {v : ℚ} (hp : PTemp v) (h : v < 30) : PTemp (v + 1/2) := by
  obtain ⟨h15, h30, k, hk⟩ := hp
  subst hk
  have hk59 : k ≤ (59 : ℤ) := by
    have : (k : ℚ) < 60 := by linarith
    have : k < (60 : ℤ) := by exact_mod_cast this
    omega
  have hc : (k : ℚ) ≤ 59 := by exact_mod_cast hk59
  refine ⟨by linarith, by linarith, k + 1, ?_⟩
  push_cast
  ring

/-- Run a sequence of thermostat-page taps, collecting the durable-storage
writes they issue, in order. -/
def runTaps : ThermostatData → List Point → ThermostatData × List ThermostatData
  | t, [] => (t, [])
  | t, p :: ps =>
    let r := TouchThermostat p t
    let rest := runTaps r.1 ps
    (rest.1, r.2.toList ++ rest.2)

lemma touch_tap_cases (p : Point) (t : ThermostatData) :
    ((TouchThermostat p t).1.Temp = t.Temp ∧ (TouchThermostat p t).2 = none) ∨
    (15 < t.Temp ∧ (TouchThermostat p t).1.Temp = t.Temp - 1/2 ∧
      (TouchThermostat p t).2 = some (TouchThermostat p t).1) ∨
    (t.Temp < 30 ∧ (TouchThermostat p t).1.Temp = t.Temp + 1/2 ∧
      (TouchThermostat p t).2 = some (TouchThermostat p t).1) := by
  unfold TouchThermostat
  split_ifs <;> simp_all
  split <;> rfl

lemma runTaps_inv :
    ∀ (ps : List Point) (t : ThermostatData), PTemp t.Temp →
      PTemp (runTaps t ps).1.Temp ∧
      (∀ w ∈ (runTaps t ps).2, PTemp w.Temp) ∧
      ∃ k : ℤ, (runTaps t ps).1.Temp = t.Temp + k / 2 := by
  intro ps
  induction ps with
  | nil =>
    intro t hp
    exact ⟨hp, by simp [runTaps], 0, by simp [runTaps]⟩
  | cons p ps ih =>
    intro t hp
    have hstep : PTemp (TouchThermostat p t).1.Temp ∧
        (∀ w ∈ (TouchThermostat p t).2.toList, PTemp w.Temp) ∧
        ∃ j : ℤ, (TouchThermostat p t).1.Temp = t.Temp + j / 2 := by
      rcases touch_tap_cases p t with ⟨he, hw⟩ | ⟨hlt, he, hw⟩ | ⟨hlt, he, hw⟩
      · exact ⟨by rw [he]; exact hp, by simp [hw], 0, by simp [he]⟩
      · refine ⟨by rw [he]; exact PTemp_minus hp hlt, ?_, -1, by rw [he]; push_cast; ring⟩
        intro w hwmem
        rw [hw] at hwmem
        simp at hwmem
        rw [hwmem, he]
        exact PTemp_minus hp hlt
      · refine ⟨by rw [he]; exact PTemp_plus hp hlt, ?_, 1, by rw [he]; push_cast; ring⟩
        intro w hwmem
        rw [hw] at hwmem
        simp at hwmem
        rw [hwmem, he]
        exact PTemp_plus hp hlt
    obtain ⟨hp1, hw1, j, hj⟩ := hstep
    obtain ⟨hp2, hw2, k, hk⟩ := ih (TouchThermostat p t).1 hp1
    refine ⟨by simpa [runTaps] using hp2, ?_, j + k, ?_⟩
    · intro w hwmem
      simp [runTaps] at hwmem
      rcases hwmem with h | h
      · exact hw1 w (by simp [h])
      · exact hw2 w h
    · show (runTaps (TouchThermostat p t).1 ps).1.Temp = t.Temp + (↑(j + k)) / 2
      rw [hk, hj]
      push_cast
      ring

/-- Stored flash records that can actually occur on the device: the
zero-initialised flash of a first boot, or a record persisted by
`ThermostatStore.write` during a session that booted from such a record. -/
inductive StoredOK : ThermostatData → Prop
  | fresh (d : ThermostatData) : d.Temp = 0 → StoredOK d
  | persisted (d w : ThermostatData) (ps : List Point) :
      StoredOK d → w ∈ (runTaps (setupThermostat d) ps).2 → StoredOK w

lemma setup_PTemp {d : ThermostatData} (h : d.Temp = 0 ∨ PTemp d.Temp) :
    PTemp (setupThermostat d).Temp := by
  have h20 : PTemp 20 := ⟨by norm_num, by norm_num, 40, by norm_num⟩
  rcases h with h | h
  · simp [setupThermostat, h]
    exact h20
  · obtain ⟨h15, h30, k, hk⟩ := h
    simp only [setupThermostat]
    split_ifs with hc
    · exact h20
    · exact ⟨h15, h30, k, hk⟩

lemma storedOK_temp {d : ThermostatData} (h : StoredOK d) :
    d.Temp = 0 ∨ PTemp d.Temp := by
  induction h with
  | fresh d h0 => exact Or.inl h0
  | persisted d w ps _ hmem ih =>
    exact Or.inr ((runTaps_inv ps (setupThermostat d) (setup_PTemp ih)).2.1 w hmem)

/-- C9: starting from the boot-sanitised setpoint of a reachable stored
record, any sequence of thermostat-page taps keeps the setpoint within
[15.0, 30.0] and at a multiple-of-0.5 offset from the session's initial
value; every tap that changes the setpoint persists the resulting record to
durable storage; and from an in-range on-grid setpoint a tap either leaves
the setpoint unchanged (the out-of-range adjustments are no-ops) or lands
back inside [15.0, 30.0]. -/
theorem thermostat_setpoint_safety :
    ∀ d : ThermostatData, StoredOK d → ∀ ps : List Point,
      (15 ≤ (runTaps (setupThermostat d) ps).1.Temp ∧
        (runTaps (setupThermostat d) ps).1.Temp ≤ 30) ∧
      (∃ k : ℤ, (runTaps (setupThermostat d) ps).1.Temp
          = (setupThermostat d).Temp + k / 2) ∧
      (∀ (t : ThermostatData) (p : Point),
        (TouchThermostat p t).1.Temp ≠ t.Temp →
        (TouchThermostat p t).2 = some (TouchThermostat p t).1) ∧
      (∀ (t : ThermostatData) (p : Point), PTemp t.Temp →
        (TouchThermostat p t).1.Temp = t.Temp ∨
        (15 ≤ (TouchThermostat p t).1.Temp ∧ (TouchThermostat p t).1.Temp ≤ 30)) := by
  intro d hd ps
  have hinv := runTaps_inv ps (setupThermostat d) (setup_PTemp (storedOK_temp hd))
  refine ⟨⟨hinv.1.1, hinv.1.2.1⟩, hinv.2.2, ?_, ?_⟩
  · intro t p hne
    rcases touch_tap_cases p t with ⟨he, _⟩ | ⟨_, _, hw⟩ | ⟨_, _, hw⟩
    · exact absurd he hne
    · exact hw
    · exact hw
  · intro t p hp
    rcases touch_tap_cases p t with ⟨he, _⟩ | ⟨hlt, he, _⟩ | ⟨hlt, he, _⟩
    · exact Or.inl he
    · have := PTemp_minus hp hlt
      exact Or.inr (by rw [he]; exact ⟨this.1, this.2.1⟩)
    · have := PTemp_plus hp hlt
      exact Or.inr (by rw [he]; exact ⟨this.1, this.2.1⟩)

/-- Witness for C9: fresh flash, one minus tap and one plus tap. -/
theorem thermostat_setpoint_safety_witness :
    15 ≤ (runTaps (setupThermostat ⟨false, false, 0, false, false, 0⟩)
        [⟨10, 200⟩, ⟨210, 200⟩]).1.Temp ∧
    (runTaps (setupThermostat ⟨false, false, 0, false, false, 0⟩)
        [⟨10, 200⟩, ⟨210, 200⟩]).1.Temp ≤ 30 :=
  (thermostat_setpoint_safety ⟨false, false, 0, false, false, 0⟩
    (StoredOK.fresh _ rfl) [⟨10, 200⟩, ⟨210, 200⟩]).1

/-! ## 5-day weather pipeline (`Weather5DData`, `OWMListener`, `Get5DForecast`)

The timestamp field `LastTimeUpdated`, used only for the staleness check, is
not part of the modelled record; none of the verified claims mention it. -/

/-- One day bucket of the 5-day forecast (`struct Weather5DData`). -/
structure Weather5DData where
  temp : Fin 8 → ℚ
  humi : Fin 8 → ℚ
  tmin : ℚ
  tmax : ℚ
  avgh : ℚ
  icon : String
  nday : ℤ

/-- The reset value written to every bucket at the top of `Get5DForecast`:
the impossible reading 1000.0 marks unpopulated fields. -/
def resetBucket : Weather5DData :=
  { temp := fun _ => 1000, humi := fun _ => 1000,
    tmin := 1000, tmax := 1000, avgh := 1000, icon := "", nday := 0 }

/-- Update bucket `i` of the 6-bucket array.  In the C++ source an index
outside 0..5 is an out-of-bounds array write (undefined behaviour); the model
leaves the array unchanged there, and the verified streams keep the index in
range. -/
def bucketsUpd (B : Fin 6 → Weather5DData) (i : ℤ)
    (f : Weather5DData → Weather5DData) : Fin 6 → Weather5DData :=
  if h : 0 ≤ i ∧ i < 6 then
    Function.update B ⟨i.toNat, by omega⟩ (f (B ⟨i.toNat, by omega⟩))
  else B

/-- Update intra-day slot `j` of a bucket's temperature array (out-of-range
`j` is likewise an out-of-bounds write in the source). -/
def tempUpd (b : Weather5DData) (j : ℤ) (v : ℚ) : Weather5DData :=
  if h : 0 ≤ j ∧ j < 8 then
    { b with temp := Function.update b.temp ⟨j.toNat, by omega⟩ v }
  else b

/-- Update intra-day slot `j` of a bucket's humidity array. -/
def humiUpd (b : Weather5DData) (j : ℤ) (v : ℚ) : Weather5DData :=
  if h : 0 ≤ j ∧ j < 8 then
    { b with humi := Function.update b.humi ⟨j.toNat, by omega⟩ v }
  else b

/-- A `value(...)` callback of the streaming parse, identified by the key it
arrives under; keys other than `dt`/`temp`/`humidity`/`icon` (and structural
callbacks) do not touch the modelled state. -/
inductive OWMEvent where
  | dt (v : ℕ)
  | temp (v : ℚ)
  | humidity (v : ℚ)
  | icon (v : String)
  | other

/-- State of `class OWMListener` (fields `d`, `h`, `prev_day`, `_hour`,
`_count`) together with the `Forecast5D` array it writes into.  `_hour` is
uninitialised in the source; the model starts it at 0 — every stream the
claims quantify over issues a `dt` event (which sets it) before any event
that reads it. -/
structure OWMListenerState where
  d : ℤ
  h : ℤ
  prev_day : ℤ
  hourv : ℤ
  count : ℕ
  buckets : Fin 6 → Weather5DData

/-- `OWMListener::Init()` plus the bucket reset done by `Get5DForecast`. -/
def listenerInit : OWMListenerState :=
  { d := -1, h := 0, prev_day := -1, hourv := 0, count := 0,
    buckets := fun _ => resetBucket }

/-- The `value()` callback of `OWMListener`, one event at a time. -/
def listenerStep (s : OWMListenerState) (e : OWMEvent) : OWMListenerState :=
  match e with
  | .dt v =>
    let s := { s with count := s.count + 1 }
    let dayW : ℤ := ((v / 86400 + 4) % 7 : ℕ)
    let s := { s with hourv := ((v % 86400) / 3600 : ℕ) }
    if s.prev_day ≠ dayW then
      { s with d := s.d + 1, h := 0, prev_day := dayW,
               buckets := bucketsUpd s.buckets (s.d + 1) (fun b => { b with nday := dayW }) }
    else
      { s with h := s.h + 1 }
  | .temp v => { s with buckets := bucketsUpd s.buckets s.d (fun b => tempUpd b s.h v) }
  | .humidity v => { s with buckets := bucketsUpd s.buckets s.d (fun b => humiUpd b s.h v) }
  | .icon v =>
    if s.hourv = 12 then
      { s with buckets := bucketsUpd s.buckets s.d (fun b => { b with icon := v }) }
    else s
  | .other => s

/-- Feed a whole event stream through the listener, starting from the reset
state (`Get5DForecast` re-initialises listener and buckets on every attempt). -/
def decodeAll (evs : List OWMEvent) : OWMListenerState :=
  evs.foldl listenerStep listenerInit

/-- The per-bucket aggregation step from `Get5DForecast` (one `h` iteration):
accumulator is `(_min, _max, avg_humi)`.  A slot whose temperature is the
sentinel is skipped entirely (`continue`), including its humidity. -/
def aggrStep (b : Weather5DData) (acc : ℚ × ℚ × ℚ) (j : Fin 8) : ℚ × ℚ × ℚ :=
  if b.temp j = 1000 then acc
  else
    let mx := if acc.2.1 < b.temp j then b.temp j else acc.2.1
    let mn := if b.temp j < acc.1 then b.temp j else acc.1
    let av := if b.humi j ≠ 1000 then acc.2.2 + b.humi j else acc.2.2
    (mn, mx, av)

/-- The aggregation pass of `Get5DForecast` for one bucket: fold the 8 slots
with `_min = 100`, `_max = -100`, `avg_humi = 0`, then divide the humidity
sum by the fixed slot count 8. -/
def aggregateBucket (b : Weather5DData) : Weather5DData :=
  let acc := (List.finRange 8).foldl (aggrStep b) (100, -100, 0)
  { b with tmin := acc.1, tmax := acc.2.1, avgh := acc.2.2 / 8 }

/-- The aggregation pass over all 6 buckets. -/
def aggregateAll (B : Fin 6 → Weather5DData) : Fin 6 → Weather5DData :=
  fun d => aggregateBucket (B d)

/-- Outcome of one HTTP fetch attempt inside `Get5DForecast`: connection
refused (`client.connect` fails), the 2-second inactivity timeout, or a
token stream delivered to the streaming parser. -/
inductive FetchOutcome where
  | connectFail
  | timeout
  | stream (evs : List OWMEvent)

/-- Result of the pipeline: `aborted` when a connection failure or timeout
makes `Get5DForecast` return silently (buckets stay reset), `done` after a
decode that passed the 40-item integrity check and the aggregation pass. -/
inductive FiveDayResult where
  | aborted (B : Fin 6 → Weather5DData)
  | done (B : Fin 6 → Weather5DData)

/-- The retry structure of `Get5DForecast`, driven by the sequence of fetch
outcomes the network produces: every attempt resets the buckets and the
listener; a completed stream whose `dt` count differs from 40 triggers a
full recursive retry on the next outcome; `none` means the supplied outcomes
were exhausted with the pipeline still retrying (the source recursion has no
retry limit and surfaces no error). -/
def Get5DForecast : List FetchOutcome → Option FiveDayResult
  | [] => none
  | .connectFail :: _ => some (.aborted listenerInit.buckets)
  | .timeout :: _ => some (.aborted listenerInit.buckets)
  | .stream evs :: rest =>
    let st := decodeAll evs
    if st.count ≠ 40 then Get5DForecast rest
    else some (.done (aggregateAll st.buckets))

/-- A fetch attempt that completes its stream but fails the 40-item
integrity check (the only retried failure mode). -/
def BadAttempt : FetchOutcome → Prop
  | .stream evs => (decodeAll evs).count ≠ 40
  | _ => False

/-- C4: attempts whose stream fails the 40-item integrity check are
transparently retried: any number of them in front of the outcome sequence
leaves the pipeline result unchanged (each retry restarts the fetch and
decode from a reset state), and a sequence consisting only of such attempts
yields no result at all — the pipeline is still retrying, with no retry
limit and no error value ever produced for the UI. -/
theorem forecast5d_unbounded_retry :
    ∀ bad : List FetchOutcome, (∀ a ∈ bad, BadAttempt a) →
      (∀ rest, Get5DForecast (bad ++ rest) = Get5DForecast rest) ∧
      Get5DForecast bad = none := by
  intro bad
  induction bad with
  | nil => intro _; exact ⟨fun rest => rfl, rfl⟩
  | cons a l ih =>
    intro hbad
    have ha := hbad a (List.mem_cons_self a l)
    have hl : ∀ x ∈ l, BadAttempt x := fun x hx => hbad x (List.mem_cons_of_mem a hx)
    obtain ⟨ihk, ihn⟩ := ih hl
    cases a with
    | connectFail => exact absurd ha (by simp [BadAttempt])
    | timeout => exact absurd ha (by simp [BadAttempt])
    | stream evs =>
      have hc : (decodeAll evs).count ≠ 40 := ha
      have hstep : ∀ xs, Get5DForecast (.stream evs :: xs) = Get5DForecast xs := by
        intro xs
        simp [Get5DForecast, hc]
      refine ⟨fun rest => ?_, ?_⟩
      · rw [List.cons_append, hstep, ihk]
      · rw [hstep, ihn]

/-- Witness for C4: a single malformed-stream attempt produces no result. -/
theorem forecast5d_unbounded_retry_witness :
    Get5DForecast [FetchOutcome.stream []] = none :=
  (forecast5d_unbounded_retry [FetchOutcome.stream []]
    (by
      intro a hmem
      simp at hmem
      subst hmem
      show (decodeAll []).count ≠ 40
      decide)).2

/-! ## Day bucketing (C5) -/

/-- Day-of-week index computed by the listener from a calendar-day number
(`((timestamp / 86400) + 4) % 7`, 0 = Sunday). -/
def dayOfWeekOf (dd : ℕ) : ℤ :=
  ((dd + 4) % 7 : ℕ)

/-- Run one calendar-day group of `dt` events through the listener. -/
def runG (s : OWMListenerState) (g : List ℕ) : OWMListenerState :=
  (g.map OWMEvent.dt).foldl listenerStep s

lemma sameDayRun :
    ∀ (g : List ℕ) (dd : ℕ) (s : OWMListenerState),
      (∀ e ∈ g, e / 86400 = dd) → s.prev_day = dayOfWeekOf dd →
      (runG s g).count = s.count + g.length ∧
      (runG s g).d = s.d ∧
      (runG s g).prev_day = s.prev_day ∧
      (runG s g).buckets = s.buckets := by
  intro g
  induction g with
  | nil => intro dd s _ _; exact ⟨rfl, rfl, rfl, rfl⟩
  | cons e t ih =>
    intro dd s hall hprev
    have he : e / 86400 = dd := hall e (List.mem_cons_self e t)
    have hstep : runG s (e :: t) = runG (listenerStep s (.dt e)) t := by
      simp [runG]
    have hsame : listenerStep s (.dt e) =
        { s with count := s.count + 1, hourv := ((e % 86400) / 3600 : ℕ), h := s.h + 1 } := by
      simp only [listenerStep]
      rw [he]
      rw [if_neg (by simp [hprev, dayOfWeekOf])]
    have ht : ∀ x ∈ t, x / 86400 = dd := fun x hx => hall x (List.mem_cons_of_mem e hx)
    obtain ⟨ic, id', ip, ib⟩ := ih dd (listenerStep s (.dt e)) ht (by rw [hsame]; exact hprev)
    rw [hstep]
    refine ⟨?_, ?_, ?_, ?_⟩
    · rw [ic, hsame]; simp; omega
    · rw [id', hsame]
    · rw [ip, hsame]
    · rw [ib, hsame]

lemma newDayRun :
    ∀ (g : List ℕ) (dd : ℕ) (s : OWMListenerState),
      g ≠ [] →
      (∀ e ∈ g, e / 86400 = dd) → s.prev_day ≠ dayOfWeekOf dd →
      (runG s g).count = s.count + g.length ∧
      (runG s g).d = s.d + 1 ∧
      (runG s g).prev_day = dayOfWeekOf dd ∧
      (runG s g).buckets =
        bucketsUpd s.buckets (s.d + 1) (fun b => { b with nday := dayOfWeekOf dd }) := by
  intro g dd s hne hall hprev
  cases g with
  | nil => exact absurd rfl hne
  | cons e t =>
    have he : e / 86400 = dd := hall e (List.mem_cons_self e t)
    have hstep : runG s (e :: t) = runG (listenerStep s (.dt e)) t := by
      simp [runG]
    have hnew : listenerStep s (.dt e) =
        { s with count := s.count + 1, hourv := ((e % 86400) / 3600 : ℕ),
                 d := s.d + 1, h := 0, prev_day := dayOfWeekOf dd,
                 buckets := bucketsUpd s.buckets (s.d + 1)
                   (fun b => { b with nday := dayOfWeekOf dd }) } := by
      simp only [listenerStep]
      rw [he]
      rw [if_pos (by simp [dayOfWeekOf] at hprev ⊢; exact hprev)]
      rfl
    have ht : ∀ x ∈ t, x / 86400 = dd := fun x hx => hall x (List.mem_cons_of_mem e hx)
    obtain ⟨ic, id', ip, ib⟩ := sameDayRun t dd (listenerStep s (.dt e)) ht
      (by rw [hnew])
    rw [hstep]
    refine ⟨?_, ?_, ?_, ?_⟩
    · rw [ic, hnew]; simp; omega
    · rw [id', hnew]
    · rw [ip, hnew]
    · rw [ib, hnew]

lemma dayOfWeekOf_ne {a b : ℕ} (hab : a < b) (h7 : b < a + 7) :
    dayOfWeekOf a ≠ dayOfWeekOf b := by
  unfold dayOfWeekOf
  intro h
  have h' : (a + 4) % 7 = (b + 4) % 7 := by exact_mod_cast h
  omega

lemma bucketsUpd_apply (B : Fin 6 → Weather5DData) (i : ℤ) (h0 : 0 ≤ i) (h6 : i < 6)
    (f : Weather5DData → Weather5DData) (j : Fin 6) :
    bucketsUpd B i f j =
      if (j : ℕ) = i.toNat then f (B ⟨i.toNat, by omega⟩) else B j := by
  unfold bucketsUpd
  rw [dif_pos ⟨h0, h6⟩, Function.update_apply]
  simp [Fin.ext_iff]

/-- C5: a stream of 40 `dt` epoch values, grouped in order into exactly five
distinct calendar days (all within one week, as any 5-day forecast window
is), decodes to exactly five populated buckets — bucket `i` carries the
day-of-week index `((epoch/86400)+4) % 7` of the epochs assigned to it and
nothing else — while the sixth bucket keeps its reset values, and the item
count reaches 40. -/
theorem forecast5d_day_bucketing :
    ∀ (g0 g1 g2 g3 g4 : List ℕ) (d0 d1 d2 d3 d4 : ℕ),
      g0 ≠ [] → g1 ≠ [] → g2 ≠ [] → g3 ≠ [] → g4 ≠ [] →
      (∀ e ∈ g0, e / 86400 = d0) → (∀ e ∈ g1, e / 86400 = d1) →
      (∀ e ∈ g2, e / 86400 = d2) → (∀ e ∈ g3, e / 86400 = d3) →
      (∀ e ∈ g4, e / 86400 = d4) →
      d0 < d1 → d1 < d2 → d2 < d3 → d3 < d4 → d4 < d0 + 7 →
      (g0 ++ g1 ++ g2 ++ g3 ++ g4).length = 40 →
      (decodeAll ((g0 ++ g1 ++ g2 ++ g3 ++ g4).map OWMEvent.dt)).count = 40 ∧
      (decodeAll ((g0 ++ g1 ++ g2 ++ g3 ++ g4).map OWMEvent.dt)).d = 4 ∧
      (decodeAll ((g0 ++ g1 ++ g2 ++ g3 ++ g4).map OWMEvent.dt)).buckets 0
        = { resetBucket with nday := dayOfWeekOf d0 } ∧
      (decodeAll ((g0 ++ g1 ++ g2 ++ g3 ++ g4).map OWMEvent.dt)).buckets 1
        = { resetBucket with nday := dayOfWeekOf d1 } ∧
      (decodeAll ((g0 ++ g1 ++ g2 ++ g3 ++ g4).map OWMEvent.dt)).buckets 2
        = { resetBucket with nday := dayOfWeekOf d2 } ∧
      (decodeAll ((g0 ++ g1 ++ g2 ++ g3 ++ g4).map OWMEvent.dt)).buckets 3
        = { resetBucket with nday := dayOfWeekOf d3 } ∧
      (decodeAll ((g0 ++ g1 ++ g2 ++ g3 ++ g4).map OWMEvent.dt)).buckets 4
        = { resetBucket with nday := dayOfWeekOf d4 } ∧
      (decodeAll ((g0 ++ g1 ++ g2 ++ g3 ++ g4).map OWMEvent.dt)).buckets 5
        = resetBucket := by
  intro g0 g1 g2 g3 g4 d0 d1 d2 d3 d4 hn0 hn1 hn2 hn3 hn4 ha0 ha1 ha2 ha3 ha4
    o01 o12 o23 o34 o7 hlen
  have hsplit : decodeAll ((g0 ++ g1 ++ g2 ++ g3 ++ g4).map OWMEvent.dt)
      = runG (runG (runG (runG (runG listenerInit g0) g1) g2) g3) g4 := by
    simp [decodeAll, runG, List.map_append, List.foldl_append]
  obtain ⟨c0, dd0, p0, b0⟩ := newDayRun g0 d0 listenerInit hn0 ha0
    (by show (-1 : ℤ) ≠ dayOfWeekOf d0; unfold dayOfWeekOf; omega)
  obtain ⟨c1, dd1, p1, b1⟩ := newDayRun g1 d1 (runG listenerInit g0) hn1 ha1
    (by rw [p0]; exact dayOfWeekOf_ne o01 (by omega))
  obtain ⟨c2, dd2, p2, b2⟩ := newDayRun g2 d2 (runG (runG listenerInit g0) g1) hn2 ha2
    (by rw [p1]; exact dayOfWeekOf_ne o12 (by omega))
  obtain ⟨c3, dd3, p3, b3⟩ :=
    newDayRun g3 d3 (runG (runG (runG listenerInit g0) g1) g2) hn3 ha3
    (by rw [p2]; exact dayOfWeekOf_ne o23 (by omega))
  obtain ⟨c4, dd4, p4, b4⟩ :=
    newDayRun g4 d4 (runG (runG (runG (runG listenerInit g0) g1) g2) g3) hn4 ha4
    (by rw [p3]; exact dayOfWeekOf_ne o34 (by omega))
  have hd1 : (runG listenerInit g0).d = 0 := by
    rw [dd0]; decide
  have hd2 : (runG (runG listenerInit g0) g1).d = 1 := by
    rw [dd1, hd1]; decide
  have hd3 : (runG (runG (runG listenerInit g0) g1) g2).d = 2 := by
    rw [dd2, hd2]; decide
  have hd4 : (runG (runG (runG (runG listenerInit g0) g1) g2) g3).d = 3 := by
    rw [dd3, hd3]; decide
  have hB : (runG (runG (runG (runG (runG listenerInit g0) g1) g2) g3) g4).buckets =
      bucketsUpd (bucketsUpd (bucketsUpd (bucketsUpd (bucketsUpd
        (fun _ => resetBucket) 0 (fun b => { b with nday := dayOfWeekOf d0 }))
        1 (fun b => { b with nday := dayOfWeekOf d1 }))
        2 (fun b => { b with nday := dayOfWeekOf d2 }))
        3 (fun b => { b with nday := dayOfWeekOf d3 }))
        4 (fun b => { b with nday := dayOfWeekOf d4 }) := by
    rw [b4, hd4, b3, hd3, b2, hd2, b1, hd1, b0]
    norm_num
    rfl
  have hlen' : g0.length + g1.length + g2.length + g3.length + g4.length = 40 := by
    simp [List.length_append] at hlen
    omega
  refine ⟨?_, ?_, ?_, ?_, ?_, ?_, ?_, ?_⟩
  · rw [hsplit, c4, c3, c2, c1, c0]
    show 0 + g0.length + g1.length + g2.length + g3.length + g4.length = 40
    omega
  · rw [hsplit, dd4, hd4]; decide
  · rw [hsplit, hB]
    rw [bucketsUpd_apply _ 4 (by norm_num) (by norm_num), if_neg (by decide)]
    rw [bucketsUpd_apply _ 3 (by norm_num) (by norm_num), if_neg (by decide)]
    rw [bucketsUpd_apply _ 2 (by norm_num) (by norm_num), if_neg (by decide)]
    rw [bucketsUpd_apply _ 1 (by norm_num) (by norm_num), if_neg (by decide)]
    rw [bucketsUpd_apply _ 0 (by norm_num) (by norm_num), if_pos (by decide)]
  · rw [hsplit, hB]
    rw [bucketsUpd_apply _ 4 (by norm_num) (by norm_num), if_neg (by decide)]
    rw [bucketsUpd_apply _ 3 (by norm_num) (by norm_num), if_neg (by decide)]
    rw [bucketsUpd_apply _ 2 (by norm_num) (by norm_num), if_neg (by decide)]
    rw [bucketsUpd_apply _ 1 (by norm_num) (by norm_num), if_pos (by decide)]
    rw [bucketsUpd_apply _ 0 (by norm_num) (by norm_num), if_neg (by decide)]
  · rw [hsplit, hB]
    rw [bucketsUpd_apply _ 4 (by norm_num) (by norm_num), if_neg (by decide)]
    rw [bucketsUpd_apply _ 3 (by norm_num) (by norm_num), if_neg (by decide)]
    rw [bucketsUpd_apply _ 2 (by norm_num) (by norm_num), if_pos (by decide)]
    rw [bucketsUpd_apply _ 1 (by norm_num) (by norm_num), if_neg (by decide)]
    rw [bucketsUpd_apply _ 0 (by norm_num) (by norm_num), if_neg (by decide)]
  · rw [hsplit, hB]
    rw [bucketsUpd_apply _ 4 (by norm_num) (by norm_num), if_neg (by decide)]
    rw [bucketsUpd_apply _ 3 (by norm_num) (by norm_num), if_pos (by decide)]
    rw [bucketsUpd_apply _ 2 (by norm_num) (by norm_num), if_neg (by decide)]
    rw [bucketsUpd_apply _ 1 (by norm_num) (by norm_num), if_neg (by decide)]
    rw [bucketsUpd_apply _ 0 (by norm_num) (by norm_num), if_neg (by decide)]
  · rw [hsplit, hB]
    rw [bucketsUpd_apply _ 4 (by norm_num) (by norm_num), if_pos (by decide)]
    rw [bucketsUpd_apply _ 3 (by norm_num) (by norm_num), if_neg (by decide)]
    rw [bucketsUpd_apply _ 2 (by norm_num) (by norm_num), if_neg (by decide)]
    rw [bucketsUpd_apply _ 1 (by norm_num) (by norm_num), if_neg (by decide)]
    rw [bucketsUpd_apply _ 0 (by norm_num) (by norm_num), if_neg (by decide)]
  · rw [hsplit, hB]
    rw [bucketsUpd_apply _ 4 (by norm_num) (by norm_num), if_neg (by decide)]
    rw [bucketsUpd_apply _ 3 (by norm_num) (by norm_num), if_neg (by decide)]
    rw [bucketsUpd_apply _ 2 (by norm_num) (by norm_num), if_neg (by decide)]
    rw [bucketsUpd_apply _ 1 (by norm_num) (by norm_num), if_neg (by decide)]
    rw [bucketsUpd_apply _ 0 (by norm_num) (by norm_num), if_neg (by decide)]

/-- Concrete epoch group for the C5 witness: calendar day `100 + i`, eight
3-hourly readings. -/
def wgrp (i : ℕ) : List ℕ :=
  (List.range 8).map (fun j => (100 + i) * 86400 + j * 10800)

/-- Witness for C5: five consecutive concrete days, eight epochs each. -/
theorem forecast5d_day_bucketing_witness :
    (decodeAll ((wgrp 0 ++ wgrp 1 ++ wgrp 2 ++ wgrp 3 ++ wgrp 4).map OWMEvent.dt)).count
        = 40 ∧
    (decodeAll ((wgrp 0 ++ wgrp 1 ++ wgrp 2 ++ wgrp 3 ++ wgrp 4).map OWMEvent.dt)).buckets 0
        = { resetBucket with nday := dayOfWeekOf 100 } ∧
    (decodeAll ((wgrp 0 ++ wgrp 1 ++ wgrp 2 ++ wgrp 3 ++ wgrp 4).map OWMEvent.dt)).buckets 5
        = resetBucket := by
  have h := forecast5d_day_bucketing (wgrp 0) (wgrp 1) (wgrp 2) (wgrp 3) (wgrp 4)
    100 101 102 103 104
    (by decide) (by decide) (by decide) (by decide) (by decide)
    (by decide) (by decide) (by decide) (by decide) (by decide)
    (by decide) (by decide) (by decide) (by decide) (by decide)
    (by decide)
  exact ⟨h.1, h.2.2.1, h.2.2.2.2.2.2.2⟩

/-! ## Aggregation pass (C6) -/

lemma aggrFold_spec (b : Weather5DData) :
    ∀ (L : List (Fin 8)) (acc : ℚ × ℚ × ℚ),
      L.foldl (aggrStep b) acc =
        (((L.filter (fun j => b.temp j ≠ 1000)).map b.temp).foldl
            (fun m x => if x < m then x else m) acc.1,
         ((L.filter (fun j => b.temp j ≠ 1000)).map b.temp).foldl
            (fun m x => if m < x then x else m) acc.2.1,
         acc.2.2 + (L.map (fun j =>
            if b.temp j ≠ 1000 ∧ b.humi j ≠ 1000 then b.humi j else 0)).sum) := by
  intro L
  induction L with
  | nil => intro acc; simp
  | cons j t ih =>
    intro acc
    rw [List.foldl_cons, ih (aggrStep b acc j)]
    by_cases hT : b.temp j = 1000
    · simp [aggrStep, hT]
    · by_cases hH : b.humi j = 1000
      · simp [aggrStep, hT, hH]
      · simp [aggrStep, hT, hH, add_assoc]

/-- C6 (amended): in the per-bucket aggregation pass, `tmin`/`tmax` are folded
over exactly the slots whose *temperature* is not the sentinel, and a slot's
humidity enters the sum only when the slot's temperature *and* humidity are
both non-sentinel (the `continue` on a sentinel temperature also skips that
slot's humidity); `avgh` is that sum divided by the fixed slot count 8. -/
theorem forecast5d_aggregation_sentinel :
    ∀ b : Weather5DData,
      (aggregateBucket b).tmin =
        (((List.finRange 8).filter (fun j => b.temp j ≠ 1000)).map b.temp).foldl
          (fun m x => if x < m then x else m) 100 ∧
      (aggregateBucket b).tmax =
        (((List.finRange 8).filter (fun j => b.temp j ≠ 1000)).map b.temp).foldl
          (fun m x => if m < x then x else m) (-100) ∧
      (aggregateBucket b).avgh =
        (∑ j : Fin 8, if b.temp j ≠ 1000 ∧ b.humi j ≠ 1000 then b.humi j else 0) / 8 := by
  intro b
  have h := aggrFold_spec b (List.finRange 8) (100, -100, 0)
  refine ⟨?_, ?_, ?_⟩ <;> simp only [aggregateBucket, h]
  rw [Fin.sum_univ_def]
  norm_num

/-- The C6 counterexample stream: a well-formed 40-item `dt` sequence over
five days, with one humidity value delivered for a slot whose temperature is
never delivered (so the slot's temperature stays at the sentinel). -/
def evsC6 : List OWMEvent :=
  OWMEvent.dt (100 * 86400) :: OWMEvent.humidity 50 ::
    ((wgrp 0 ++ wgrp 1 ++ wgrp 2 ++ wgrp 3 ++ wgrp 4).drop 1).map OWMEvent.dt

set_option maxRecDepth 8000 in
/-- Counterexample to C6 as stated: after this successful decode (40 items),
bucket 0 has the non-sentinel humidity 50 in slot 0 while its temperature
slot is sentinel; the aggregation yields `avgh = 0`, not the
`sum(non-sentinel humidity)/8 = 50/8` the claim requires. -/
theorem forecast5d_aggregation_counterexample :
    (decodeAll evsC6).count = 40 ∧
    ((decodeAll evsC6).buckets 0).humi 0 = 50 ∧
    ((decodeAll evsC6).buckets 0).temp 0 = 1000 ∧
    (aggregateBucket ((decodeAll evsC6).buckets 0)).avgh = 0 ∧
    (∑ j : Fin 8, if ((decodeAll evsC6).buckets 0).humi j ≠ 1000
        then ((decodeAll evsC6).buckets 0).humi j else 0) / 8 = 50 / 8 ∧
    (0 : ℚ) ≠ 50 / 8 := by
  have hbval : ∀ j : Fin 8,
      ((decodeAll evsC6).buckets 0).humi j = (if j = 0 then 50 else 1000) ∧
      ((decodeAll evsC6).buckets 0).temp j = 1000 := by decide
  have hacc : (List.finRange 8).foldl
      (aggrStep ((decodeAll evsC6).buckets 0)) (100, -100, 0) = (100, -100, 0) := by
    decide
  refine ⟨by decide, ?_, (hbval 0).2, ?_, ?_, by norm_num⟩
  · rw [(hbval 0).1]; norm_num
  · simp only [aggregateBucket, hacc]
    norm_num
  · have hfun : (fun j : Fin 8 =>
        if ((decodeAll evsC6).buckets 0).humi j ≠ 1000
        then ((decodeAll evsC6).buckets 0).humi j else 0)
        = (fun j : Fin 8 => if j = 0 then (50 : ℚ) else 0) := by
      funext j
      rw [(hbval j).1]
      by_cases hj : j = 0 <;> simp [hj]
    rw [hfun]
    rw [Finset.sum_ite_eq' Finset.univ (0 : Fin 8) (fun _ => (50 : ℚ))]
    simp

/-! ## Navigation state machine (`Page`, `onClick`, `onLongClick`, the idle
countdown of `loop()`) -/

/-- Page identifiers (`enum ePages`). -/
def kPage_Home : ℕ := 0

/-- `kPage_Config`. -/
def kPage_Config : ℕ := 1

/-- `kPage_Forecast24H`. -/
def kPage_Forecast24H : ℕ := 2

/-- `kPage_Forecast5D`. -/
def kPage_Forecast5D : ℕ := 3

/-- `kPage_Switches`. -/
def kPage_Switches : ℕ := 4

/-- `kPage_Thermostat`. -/
def kPage_Thermostat : ℕ := 5

/-- `kPage_Auth`. -/
def kPage_Auth : ℕ := 6

/-- Seconds of inactivity before returning to the home page (`IDLE_TIME`). -/
def IDLE_TIME : ℕ := 6

/-- Switch-button grid constants from the source. -/
def SWBTN_TOP_Y : ℤ := 20

/-- `SWBTN_WIDTH`. -/
def SWBTN_WIDTH : ℤ := 160

/-- `SWBTN_HEIGHT`. -/
def SWBTN_HEIGHT : ℤ := 55

/-- One relay-switch definition (`struct SwitchDef`); `SwType` models the
source field `Type` (a Lean keyword). -/
structure SwitchDef where
  Name : String
  Hidden : ℤ
  AskConfirm : ℤ
  SwType : ℤ
  Status : ℤ

/-- Result of the external `CheckLogin` HTTP call: body `"1"` (accepted), any
other body (refused), or `TIMEOUT`/`OFFLINE` (unreachable). -/
inductive LoginResult where
  | accepted
  | refused
  | unreachable

/-- The navigation-relevant global state: current page, idle countdown,
pending-confirmation record (`struct WaitFor Confirm`), session PIN and the
login entry buffer (modelled as digit lists; `PIN ≠ ""` becomes `PIN ≠ []`),
the 8 switch definitions, and the thermostat record. -/
structure NavState where
  Page : ℕ
  IdleTimer : ℕ
  ConfirmWait : Bool
  ConfirmButton : ℤ
  PIN : List ℕ
  pinEntry : List ℕ
  Switch : Fin 8 → SwitchDef
  Thermostat : ThermostatData

/-- External inputs of one event dispatch: the Wi-Fi link state, the login
collaborator's answer, and the junk record an out-of-bounds `Switch[i]` read
would return (such a read is undefined behaviour in the C++; quantifying over
the junk value keeps the model sound for any actual memory content). -/
structure NavEnv where
  wifiok : Bool
  loginResult : LoginResult
  oobSwitch : SwitchDef

/-- `draw_screen(int pg)`: records the new page; entering the login page
clears the PIN entry buffer (`LoginPage`), entering the switches page clears
any pending confirmation. Everything else it does is drawing. -/
def draw_screen (pg : ℕ) (st : NavState) : NavState :=
  let st := { st with Page := pg }
  if pg = kPage_Auth then { st with pinEntry := [] }
  else if pg = kPage_Switches then { st with ConfirmWait := false, ConfirmButton := -1 }
  else st

/-- One row of the switch-button hit scan in `TouchSwiches`: two columns, the
cell counter `s` is not incremented for a matching cell and the row is left
on a match (`break`).  Returns the counter after the row and the (possibly
updated) resolved button. -/
def scanRow (p : Point) (y : ℤ) (s button : ℤ) : ℤ × ℤ :=
  if isIntersect p.x p.y 1 1 0 y SWBTN_WIDTH SWBTN_HEIGHT then (s, s)
  else if isIntersect p.x p.y 1 1 SWBTN_WIDTH y SWBTN_WIDTH SWBTN_HEIGHT then
    (s + 1, s + 1)
  else (s + 2, button)

/-- The button-resolution loop of `TouchSwiches`: scan the 4 rows of the
2-column grid starting from `s = 0`, `button = -1`.  A tap outside every
cell leaves the result at `-1`. -/
def TouchSwichesButton (p : Point) : ℤ :=
  let r0 := scanRow p (SWBTN_TOP_Y + 0 * SWBTN_HEIGHT) 0 (-1)
  let r1 := scanRow p (SWBTN_TOP_Y + 1 * SWBTN_HEIGHT) r0.1 r0.2
  let r2 := scanRow p (SWBTN_TOP_Y + 2 * SWBTN_HEIGHT) r1.1 r1.2
  let r3 := scanRow p (SWBTN_TOP_Y + 3 * SWBTN_HEIGHT) r2.1 r2.2
  r3.2

/-- The `Switch[i]` array read; an index outside 0..7 is an out-of-bounds
read in the C++ and yields the environment's junk record here. -/
def switchRead (st : NavState) (env : NavEnv) (i : ℤ) : SwitchDef :=
  if h : 0 ≤ i ∧ i < 8 then st.Switch ⟨i.toNat, by omega⟩ else env.oobSwitch

/-- `TouchSwiches(TS_Point p)`: while a confirmation is pending only the
NO/YES regions act (both re-enter the switches page and clear the pending
record; YES additionally fires the `DoSwitch` stub); otherwise the tap is
resolved to a button slot, hidden switches are inert, confirmation-requiring
switches arm the pending record, and the rest fire `DoSwitch` immediately. -/
def TouchSwiches (p : Point) (st : NavState) (env : NavEnv) : NavState :=
  if st.ConfirmWait then
    let st := if isIntersect p.x p.y 1 1 0 120 120 120 then
        let st := draw_screen kPage_Switches st
        { st with ConfirmButton := -1, ConfirmWait := false }
      else st
    let st := if isIntersect p.x p.y 1 1 200 120 120 120 then
        let st := draw_screen kPage_Switches st
        { st with ConfirmButton := -1, ConfirmWait := false }
      else st
    st
  else
    let button := TouchSwichesButton p
    let sw := switchRead st env button
    if sw.Hidden ≠ 0 then st
    else if sw.AskConfirm ≠ 0 then
      { st with ConfirmWait := true, ConfirmButton := button }
    else st

/-- `CheckLogin()`: unreachable server or a refused PIN return to the home
page; acceptance stores the session PIN and enters the switches page. -/
def CheckLogin (st : NavState) (env : NavEnv) : NavState :=
  match env.loginResult with
  | .unreachable => draw_screen kPage_Home st
  | .accepted => draw_screen kPage_Switches { st with PIN := st.pinEntry }
  | .refused => draw_screen kPage_Home st

/-- The digit-cell scan of one login keypad row: the cell counter `n` is the
digit value; a hit appends it only while the entry holds fewer than 4 digits
(and then leaves the row); a hit on a full entry just keeps counting. -/
def loginScanCols (p : Point) (y : ℤ) :
    List ℤ → ℕ → List ℕ → ℕ × List ℕ
  | [], n, entry => (n, entry)
  | x :: rest, n, entry =>
    if isIntersect p.x p.y 1 1 x y 64 64 then
      if entry.length < 4 then (n, entry ++ [n])
      else loginScanCols p y rest (n + 1) entry
    else loginScanCols p y rest (n + 1) entry

/-- `TouchLogin(TS_Point p)`: the two keypad rows, then the OK button, which
fires `CheckLogin`. -/
def TouchLogin (p : Point) (st : NavState) (env : NavEnv) : NavState :=
  let r0 := loginScanCols p 110 [0, 64, 128, 192, 256] 0 st.pinEntry
  let r1 := loginScanCols p (110 + 64) [0, 64, 128, 192, 256] r0.1 r0.2
  let st := { st with pinEntry := r1.2 }
  if isIntersect p.x p.y 1 1 (320 - 64 * 2) 30 (64 * 2) 64 then CheckLogin st env
  else st

/-- `onClick(TS_Point p)`: the single-tap dispatcher.  Returns the new state
and whether `NVIC_SystemReset()` fired.  A tap while the Wi-Fi link is down
restarts the device immediately, in any mode. -/
def onClick (p : Point) (st : NavState) (env : NavEnv) : NavState × Bool :=
  if env.wifiok = false then (st, true)
  else if st.Page = kPage_Home then
    let st := if isIntersect p.x p.y 1 1 200 170 120 70 then draw_screen kPage_Thermostat st
      else if isIntersect p.x p.y 1 1 0 140 200 200 then draw_screen kPage_Forecast24H st
      else draw_screen (if st.PIN ≠ [] then kPage_Switches else kPage_Auth) st
    ({ st with IdleTimer := IDLE_TIME }, false)
  else if st.Page = kPage_Auth then
    let st := { st with IdleTimer := IDLE_TIME }
    (TouchLogin p st env, false)
  else if st.Page = kPage_Switches then
    let st := TouchSwiches p st env
    ({ st with IdleTimer := IDLE_TIME }, false)
  else if st.Page = kPage_Thermostat then
    let st := { st with Thermostat := (TouchThermostat p st.Thermostat).1 }
    ({ st with IdleTimer := IDLE_TIME }, false)
  else if st.Page = kPage_Forecast24H then (draw_screen kPage_Forecast5D st, false)
  else if st.Page = kPage_Forecast5D then (draw_screen kPage_Home st, false)
  else (st, false)

/-- `onLongClick`: restart iff `Page <= kPage_Home` — `Page` is an unsigned
int, so this means exactly the home page. -/
def onLongClick (st : NavState) : Bool :=
  decide (st.Page ≤ kPage_Home)

/-- The idle-countdown fragment at the end of the once-per-second tick in
`loop()`: only for `Page >= kPage_Switches` the timer decrements, and at
zero `draw_screen(kPage_Home)` fires — with no check of `Confirm.Wait`. -/
def IdleTick (st : NavState) : NavState :=
  if kPage_Switches ≤ st.Page then
    let st := if 0 < st.IdleTimer then { st with IdleTimer := st.IdleTimer - 1 } else st
    if st.IdleTimer = 0 then draw_screen kPage_Home st else st
  else st

lemma draw_screen_IdleTimer (pg : ℕ) (st : NavState) :
    (draw_screen pg st).IdleTimer = st.IdleTimer := by
  unfold draw_screen
  split_ifs <;> rfl

lemma CheckLogin_IdleTimer (st : NavState) (env : NavEnv) :
    (CheckLogin st env).IdleTimer = st.IdleTimer := by
  unfold CheckLogin
  cases env.loginResult <;> simp [draw_screen_IdleTimer]

lemma TouchLogin_IdleTimer (p : Point) (st : NavState) (env : NavEnv) :
    (TouchLogin p st env).IdleTimer = st.IdleTimer := by
  unfold TouchLogin
  split_ifs <;> simp [CheckLogin_IdleTimer]

lemma draw_screen_Page (pg : ℕ) (st : NavState) :
    (draw_screen pg st).Page = pg := by
  unfold draw_screen
  split_ifs <;> rfl

/-- C7 (amended): the idle timer is armed to 6 by taps in the Home, Login,
SwitchPanel and Thermostat modes only — taps in the Config and forecast
modes leave it alone; the per-tick countdown (and the forced return to Home
when it reaches zero) runs exactly in the modes with `Page >=
kPage_Switches` (SwitchPanel, Thermostat, Login), not in the forecast or
config modes; and nothing suppresses the forced return while a
`PendingConfirmation` is active. -/
theorem nav_idle_timer :
    (∀ (p : Point) (st : NavState) (env : NavEnv), env.wifiok = true →
      st.Page = kPage_Home ∨ st.Page = kPage_Auth ∨
        st.Page = kPage_Switches ∨ st.Page = kPage_Thermostat →
      ((onClick p st env).1).IdleTimer = IDLE_TIME) ∧
    (∀ (p : Point) (st : NavState) (env : NavEnv), env.wifiok = true →
      st.Page = kPage_Config ∨ st.Page = kPage_Forecast24H ∨
        st.Page = kPage_Forecast5D →
      ((onClick p st env).1).IdleTimer = st.IdleTimer) ∧
    (∀ st : NavState, kPage_Switches ≤ st.Page → st.IdleTimer ≤ 1 →
      (IdleTick st).Page = kPage_Home) ∧
    (∀ st : NavState, st.Page < kPage_Switches → IdleTick st = st) := by
  refine ⟨?_, ?_, ?_, ?_⟩
  · intro p st env hw hpage
    rcases hpage with h | h | h | h <;>
      simp [onClick, hw, h, kPage_Home, kPage_Auth, kPage_Switches, kPage_Thermostat,
        TouchLogin_IdleTimer]
  · intro p st env hw hpage
    rcases hpage with h | h | h <;>
      simp [onClick, hw, h, kPage_Home, kPage_Auth, kPage_Switches, kPage_Thermostat,
        kPage_Config, kPage_Forecast24H, kPage_Forecast5D, draw_screen_IdleTimer]
  · intro st hpage htimer
    unfold IdleTick
    rw [if_pos hpage]
    rcases Nat.le_one_iff_eq_zero_or_eq_one.mp htimer with h | h <;>
      simp [h, draw_screen_Page]
  · intro st hpage
    unfold IdleTick
    rw [if_neg (by omega)]

/-- Default switch record for concrete navigation states. -/
def swDefault : SwitchDef :=
  { Name := "", Hidden := 0, AskConfirm := 0, SwType := 0, Status := 0 }

/-- Concrete navigation state on the 24-hour forecast page, idle timer 3. -/
def navC7 : NavState :=
  { Page := kPage_Forecast24H, IdleTimer := 3, ConfirmWait := false,
    ConfirmButton := -1, PIN := [], pinEntry := [],
    Switch := fun _ => swDefault, Thermostat := thermC2 }

/-- Concrete environment: Wi-Fi up. -/
def envUp : NavEnv :=
  { wifiok := true, loginResult := .refused, oobSwitch := swDefault }

/-- Concrete navigation state on the switches page with a pending
confirmation and the idle countdown about to expire. -/
def navC7pending : NavState :=
  { navC7 with Page := kPage_Switches, ConfirmWait := true, IdleTimer := 1 }

/-- Counterexample to C7 as stated: a tap on the 24-hour forecast page (a
mode other than Home) leaves the idle timer at 3 instead of arming it to 6,
and a tick on the switches page with a pending confirmation and the timer at
1 still forces the return to Home (no suppression). -/
theorem nav_idle_timer_counterexample :
    ((onClick ⟨10, 10⟩ navC7 envUp).1).IdleTimer = 3 ∧
    (3 : ℕ) ≠ IDLE_TIME ∧
    navC7pending.ConfirmWait = true ∧
    (IdleTick navC7pending).Page = kPage_Home :=
  ⟨rfl, by decide, rfl, rfl⟩

/-- Witness for the amended C7: a tap on the home page arms the idle timer. -/
theorem nav_idle_timer_witness :
    ((onClick ⟨10, 10⟩ { navC7 with Page := kPage_Home } envUp).1).IdleTimer
      = IDLE_TIME :=
  nav_idle_timer.1 ⟨10, 10⟩ { navC7 with Page := kPage_Home } envUp rfl (Or.inl rfl)

/-- C8 (amended): the restarts reachable from the input-event handlers are
exactly the long-press on the home page and — additionally — any single tap
while the Wi-Fi link is down (`onClick` reboots before dispatching in that
case); with Wi-Fi connected a tap never restarts. -/
theorem nav_restart_paths :
    (∀ (p : Point) (st : NavState) (env : NavEnv),
      (onClick p st env).2 = true ↔ env.wifiok = false) ∧
    (∀ st : NavState, onLongClick st = true ↔ st.Page = kPage_Home) := by
  constructor
  · intro p st env
    unfold onClick
    split_ifs <;> simp_all
  · intro st
    unfold onLongClick kPage_Home
    simp [Nat.le_zero]

/-- Counterexample to C8 as stated: a plain tap on the thermostat page with
the Wi-Fi link down triggers the device restart, although it is neither a
long-press nor performed in the Home mode. -/
theorem nav_restart_counterexample :
    (onClick ⟨10, 10⟩ { navC7 with Page := kPage_Thermostat }
        { envUp with wifiok := false }).2 = true ∧ kPage_Thermostat ≠ kPage_Home :=
  ⟨rfl, by decide⟩

/-- C10: the button-resolution loop of `TouchSwiches` leaves the slot index
at its initial value −1 for any tap above the grid's top edge (y < 20, the
status-bar strip), and in particular for the concrete reachable tap (10, 10);
`Switch[-1]` is then read — an out-of-bounds access.  The index is *not*
always within [0, 7] when the `Switch` array is read. -/
theorem switch_grid_out_of_bounds :
    TouchSwichesButton ⟨10, 10⟩ = -1 ∧
    ¬ (0 ≤ TouchSwichesButton ⟨10, 10⟩ ∧ TouchSwichesButton ⟨10, 10⟩ < 8) ∧
    ∀ p : Point, p.y < SWBTN_TOP_Y → TouchSwichesButton p = -1 := by
  refine ⟨by decide, by decide, ?_⟩
  intro p hy
  unfold SWBTN_TOP_Y at hy
  have hrow : ∀ x y w : ℤ, 20 ≤ y → isIntersect p.x p.y 1 1 x y w SWBTN_HEIGHT = false := by
    intro x y w hge
    unfold isIntersect
    have hlt : ¬ (p.y + 1 > y) := by omega
    simp [hlt]
  unfold TouchSwichesButton scanRow
  rw [hrow _ _ _ (by norm_num [SWBTN_TOP_Y, SWBTN_HEIGHT]),
    hrow _ _ _ (by norm_num [SWBTN_TOP_Y, SWBTN_HEIGHT]),
    hrow _ _ _ (by norm_num [SWBTN_TOP_Y, SWBTN_HEIGHT]),
    hrow _ _ _ (by norm_num [SWBTN_TOP_Y, SWBTN_HEIGHT]),
    hrow _ _ _ (by norm_num [SWBTN_TOP_Y, SWBTN_HEIGHT]),
    hrow _ _ _ (by norm_num [SWBTN_TOP_Y, SWBTN_HEIGHT]),
    hrow _ _ _ (by norm_num [SWBTN_TOP_Y, SWBTN_HEIGHT]),
    hrow _ _ _ (by norm_num [SWBTN_TOP_Y, SWBTN_HEIGHT])]
  simp

/-- Witness for C10: another concrete status-bar tap resolves to −1. -/
theorem switch_grid_out_of_bounds_witness :
    TouchSwichesButton ⟨300, 5⟩ = -1 :=
  switch_grid_out_of_bounds.2.2 ⟨300, 5⟩ (by decide)

end HomeAutomationRemote
